import Mathlib

/-!
# EFI runtime gateway (`efi_runtime.c`)

A shallow embedding of the ioctl gateway of the EFI runtime driver: the two
time-record converters `convert_from_efi_time` / `convert_to_efi_time` and the
command dispatcher `efi_runtime_ioctl`, followed by theorems about them.

Conventions of the embedding.

* C integers are kept as `Nat` (`Int` for the signed `timezone`).  Every
  assignment in the modelled code copies a member to the member of the same
  name and width in the other record, so no assignment truncates.
* The kernel primitives `copy_from_user` / `copy_to_user` and the firmware
  table `efi.*` are not part of the driver; they are taken as parameters
  (`Boundary`, `Firmware`).
* `efi_runtime.h` (command numbers, argument structures) is not part of the
  sources; the command numbers are parameters (`Target`), the argument
  structures list exactly the members the driver touches.
* User memory changes through `copy_to_user` and through `efi.get_variable`:
  the driver hands that service the caller-supplied addresses of the ingested
  block (attributes, data size and data are outputs of the service), so the
  service receives the user memory and returns it as it leaves it.
* Local variables of `efi_runtime_ioctl` are uninitialised in C.  Their
  indeterminate initial contents are an explicit input (`Locals`), so that the
  theorems can say that a result does not depend on them.
-/

namespace EfiRuntime

/-! ## Constants -/

/-- The firmware status type `efi_status_t` (an unsigned long). -/
abbrev efi_status_t := Nat

/-- The firmware success status (`linux/efi.h`). -/
def EFI_SUCCESS : efi_status_t := 0

/-- Linux errno `EFAULT` (bad address). -/
def EFAULT : Int := 14

/-- Linux errno `EINVAL` (invalid argument). -/
def EINVAL : Int := 22

/-- Linux errno `ENOTTY` (inappropriate ioctl). -/
def ENOTTY : Int := 25

/-! ## Time records -/

/-- The firmware time record `efi_time_t` of the kernel header `linux/efi.h`: `u16 year`,
`u8 month, day, hour, minute, second, pad1`, `u32 nanosecond`, `s16 timezone`,
`u8 daylight, pad2`. -/
structure efi_time_t where
  year : Nat
  month : Nat
  day : Nat
  hour : Nat
  minute : Nat
  second : Nat
  pad1 : Nat
  nanosecond : Nat
  timezone : Int
  daylight : Nat
  pad2 : Nat
  deriving DecidableEq

/-- Modelled from the spec: the caller-side time record `EFI_TIME` is declared in
`efi_runtime.h`, which is not among the sources.  The members are the eleven the two
converters access; each has the width of the member of `efi_time_t` it is copied
to and from (the external record has the same semantic fields and two reserved
ones), so a copy between them preserves the value. -/
structure EFI_TIME where
  Year : Nat
  Month : Nat
  Day : Nat
  Hour : Nat
  Minute : Nat
  Second : Nat
  Pad1 : Nat
  Nanosecond : Nat
  TimeZone : Int
  Daylight : Nat
  Pad2 : Nat
  deriving DecidableEq

/-- The firmware capabilities record `efi_time_cap_t` of the kernel header
`linux/efi.h`: `u32 resolution`, `u32 accuracy`, `u8 sets_to_zero`. -/
structure efi_time_cap_t where
  resolution : Nat
  accuracy : Nat
  sets_to_zero : Nat
  deriving DecidableEq

/-- Modelled from the spec: the caller-side capabilities record
`EFI_TIME_CAPABILITIES` is declared in `efi_runtime.h`, which is not among the
sources.  The members are the three the dispatcher assigns (resolution, accuracy,
sets-to-zero), each as wide as the firmware member copied into it. -/
structure EFI_TIME_CAPABILITIES where
  Resolution : Nat
  Accuracy : Nat
  SetsToZero : Nat
  deriving DecidableEq

/-- The effect of `memset(time, 0, sizeof(EFI_TIME))` on the record `time`: the whole
record is covered, so every member becomes zero whatever it held. -/
def memset_EFI_TIME (_time : EFI_TIME) : EFI_TIME :=
  { Year := 0, Month := 0, Day := 0, Hour := 0, Minute := 0, Second := 0, Pad1 := 0,
    Nanosecond := 0, TimeZone := 0, Daylight := 0, Pad2 := 0 }

/-- The effect of `memset(eft, 0, n)` on an `efi_time_t` whose members sit at byte
offsets 0 (year, 2 bytes), 2, 3, 4, 5, 6, 7 (one byte each), 8 (nanosecond, 4 bytes),
12 (timezone, 2 bytes), 14 and 15: a member is cleared when all of its bytes are
among the first `n`.  The driver calls it with `n = sizeof(eft)`, the size of a
pointer (4 or 8), which ends on a member boundary. -/
def memset_head (n : Nat) (eft : efi_time_t) : efi_time_t :=
  { year := if 2 ≤ n then 0 else eft.year
    month := if 3 ≤ n then 0 else eft.month
    day := if 4 ≤ n then 0 else eft.day
    hour := if 5 ≤ n then 0 else eft.hour
    minute := if 6 ≤ n then 0 else eft.minute
    second := if 7 ≤ n then 0 else eft.second
    pad1 := if 8 ≤ n then 0 else eft.pad1
    nanosecond := if 12 ≤ n then 0 else eft.nanosecond
    timezone := if 14 ≤ n then 0 else eft.timezone
    daylight := if 15 ≤ n then 0 else eft.daylight
    pad2 := if 16 ≤ n then 0 else eft.pad2 }

/-- The converter `convert_from_efi_time(eft, time)`: `time` is the previous content
of the destination, which the function clears and then fills member by member. -/
def convert_from_efi_time (eft : efi_time_t) (time : EFI_TIME) : EFI_TIME :=
  let time := memset_EFI_TIME time
  let time := { time with Year := eft.year }
  let time := { time with Month := eft.month }
  let time := { time with Day := eft.day }
  let time := { time with Hour := eft.hour }
  let time := { time with Minute := eft.minute }
  let time := { time with Second := eft.second }
  let time := { time with Pad1 := eft.pad1 }
  let time := { time with Nanosecond := eft.nanosecond }
  let time := { time with TimeZone := eft.timezone }
  let time := { time with Daylight := eft.daylight }
  let time := { time with Pad2 := eft.pad2 }
  time

/-- The converter `convert_to_efi_time(eft, time)`: `eft` is the previous content of
the destination and `sizeof_eft` is `sizeof(eft)`, the size of the pointer, which is
what the source passes to `memset`; every member is then assigned from `time`. -/
def convert_to_efi_time (sizeof_eft : Nat) (eft : efi_time_t) (time : EFI_TIME) :
    efi_time_t :=
  let eft := memset_head sizeof_eft eft
  let eft := { eft with year := time.Year }
  let eft := { eft with month := time.Month }
  let eft := { eft with day := time.Day }
  let eft := { eft with hour := time.Hour }
  let eft := { eft with minute := time.Minute }
  let eft := { eft with second := time.Second }
  let eft := { eft with pad1 := time.Pad1 }
  let eft := { eft with nanosecond := time.Nanosecond }
  let eft := { eft with timezone := time.TimeZone }
  let eft := { eft with daylight := time.Daylight }
  let eft := { eft with pad2 := time.Pad2 }
  eft

/-! ## Argument structures (`efi_runtime.h`) -/

/-- Modelled from the spec: the argument block `struct efi_getvariable` is declared in
`efi_runtime.h`, which is not among the sources.  The members are the five the
dispatcher passes to the firmware (name, vendor GUID, attributes, data size, data);
their C types are not visible, so each is kept as the number that encodes it. -/
structure efi_getvariable where
  variable_name : Nat
  VendorGuid : Nat
  Attributes : Nat
  DataSize : Nat
  Data : Nat
  deriving DecidableEq

/-- Modelled from the spec: the argument block `struct efi_setvariable` is declared in
`efi_runtime.h`, which is not among the sources; members as for `efi_getvariable`. -/
structure efi_setvariable where
  variable_name : Nat
  VendorGuid : Nat
  Attributes : Nat
  DataSize : Nat
  Data : Nat
  deriving DecidableEq

/-- Modelled from the spec: the argument block `struct efi_gettime` is declared in
`efi_runtime.h`, which is not among the sources: a combined capabilities and time
structure, with the two members the dispatcher assigns. -/
structure efi_gettime where
  Capabilities : EFI_TIME_CAPABILITIES
  Time : EFI_TIME
  deriving DecidableEq

/-- Modelled from the spec: the argument block `struct efi_settime` is declared in
`efi_runtime.h`, which is not among the sources: an external time, the one member
the dispatcher reads. -/
structure efi_settime where
  Time : EFI_TIME
  deriving DecidableEq

/-- Modelled from the spec: the argument block `struct efi_getwakeuptime` is declared
in `efi_runtime.h`, which is not among the sources: enabled and pending flags (one
byte each, as the locals they are assigned from) and an external time. -/
structure efi_getwakeuptime where
  Enabled : Nat
  Pending : Nat
  Time : EFI_TIME
  deriving DecidableEq

/-- Modelled from the spec: the argument block `struct efi_setwakeuptime` is declared
in `efi_runtime.h`, which is not among the sources: an enabled flag and an external
time, the two members the dispatcher reads. -/
structure efi_setwakeuptime where
  Enabled : Nat
  Time : EFI_TIME
  deriving DecidableEq

/-! ## Parameters: target, user-memory boundary, firmware -/

/-- What the build fixes and the sources do not show: the size of a pointer
(`sizeof(eft)` in `convert_to_efi_time`) and the six command numbers, which are
macros of `efi_runtime.h`.  The numbers are the case labels of one `switch`, so they
are pairwise different. -/
structure Target where
  sizeof_ptr : Nat
  EFI_RUNTIME_GET_VARIABLE : Nat
  EFI_RUNTIME_SET_VARIABLE : Nat
  EFI_RUNTIME_GET_TIME : Nat
  EFI_RUNTIME_SET_TIME : Nat
  EFI_RUNTIME_GET_WAKETIME : Nat
  EFI_RUNTIME_SET_WAKETIME : Nat
  distinct : [EFI_RUNTIME_GET_VARIABLE, EFI_RUNTIME_SET_VARIABLE, EFI_RUNTIME_GET_TIME,
    EFI_RUNTIME_SET_TIME, EFI_RUNTIME_GET_WAKETIME, EFI_RUNTIME_SET_WAKETIME].Nodup

/-- The six supported command numbers of a target. -/
def Target.supported (k : Target) : List Nat :=
  [k.EFI_RUNTIME_GET_VARIABLE, k.EFI_RUNTIME_SET_VARIABLE, k.EFI_RUNTIME_GET_TIME,
    k.EFI_RUNTIME_SET_TIME, k.EFI_RUNTIME_GET_WAKETIME, k.EFI_RUNTIME_SET_WAKETIME]

/-- The two kernel copy primitives for one argument-block type `α` over a user memory
`U`.  `copy_from_user u arg` is `none` when the C primitive returns non-zero (the
driver then discards the destination), otherwise the block read at `arg`.
`copy_to_user u arg x` is `none` when the C primitive returns non-zero, otherwise the
user memory after the block `x` has been written at `arg`; a failed copy leaves the
user memory as it was (each copy is all or nothing). -/
structure UserAccess (U : Type) (α : Type) where
  copy_from_user : U → Nat → Option α
  copy_to_user : U → Nat → α → Option U

/-- The user-memory boundary: the copy primitives at each of the six block types. -/
structure Boundary (U : Type) where
  getvariable : UserAccess U efi_getvariable
  setvariable : UserAccess U efi_setvariable
  gettime : UserAccess U efi_gettime
  settime : UserAccess U efi_settime
  getwakeuptime : UserAccess U efi_getwakeuptime
  setwakeuptime : UserAccess U efi_setwakeuptime

/-- What `efi.get_variable` leaves behind: the status, the driver's local copy of the
argument block as the call leaves it (it is the ingested block when the members are
addresses passed by value), the user memory as the call leaves it (the five members
are caller-supplied and the service writes through them), and the firmware state. -/
structure GetVariableReturn (U σ : Type) where
  status : efi_status_t
  block : efi_getvariable
  user : U
  state : σ

/-- What `efi.get_time(&eft, &cap)` leaves behind. -/
structure GetTimeReturn (σ : Type) where
  status : efi_status_t
  eft : efi_time_t
  cap : efi_time_cap_t
  state : σ

/-- What `efi.get_wakeup_time(&enabled, &pending, &eft)` leaves behind. -/
structure GetWakeupTimeReturn (σ : Type) where
  status : efi_status_t
  enabled : Nat
  pending : Nat
  eft : efi_time_t
  state : σ

/-- The firmware runtime services table `efi` over a user memory `U` and a firmware
state `σ`.  Every service receives the current firmware state and its C arguments;
a service with pointer arguments to locals of the driver receives what they point
to and returns what it leaves there.  `get_variable` is handed caller-supplied
addresses, three of them for its outputs, so it also receives the user memory and
returns it as it leaves it.  The pointer arguments of `set_variable` are inputs of
the service. -/
structure Firmware (U σ : Type) where
  get_variable : σ → U → Nat → Nat → Nat → Nat → Nat → GetVariableReturn U σ
  set_variable : σ → Nat → Nat → Nat → Nat → Nat → efi_status_t × σ
  get_time : σ → efi_time_t → efi_time_cap_t → GetTimeReturn σ
  set_time : σ → efi_time_t → efi_status_t × σ
  get_wakeup_time : σ → Nat → Nat → efi_time_t → GetWakeupTimeReturn σ
  set_wakeup_time : σ → Nat → efi_time_t → efi_status_t × σ

/-- The indeterminate initial contents of those local variables of
`efi_runtime_ioctl` that are handed out by address before the driver assigns them. -/
structure Locals where
  eft : efi_time_t
  cap : efi_time_cap_t
  gettime : efi_gettime
  getwakeuptime : efi_getwakeuptime
  enabled : Nat
  pending : Nat
  deriving DecidableEq

/-! ## Observable events -/

/-- A firmware service call with the arguments the driver passes. -/
inductive FwCall where
  | get_variable (variable_name VendorGuid Attributes DataSize Data : Nat)
  | set_variable (variable_name VendorGuid Attributes DataSize Data : Nat)
  | get_time
  | set_time (eft : efi_time_t)
  | get_wakeup_time
  | set_wakeup_time (enabled : Nat) (eft : efi_time_t)
  deriving DecidableEq

/-- A block handed to `copy_to_user`. -/
inductive Egress where
  | getvariable (x : efi_getvariable)
  | gettime (x : efi_gettime)
  | getwakeuptime (x : efi_getwakeuptime)
  deriving DecidableEq

/-- One step of an execution that is visible outside the driver: a copy from user
memory at `arg` (with whether it succeeded), a firmware call (with the status it
returned), a copy to user memory at `arg` (with the block and whether it
succeeded). -/
inductive Event where
  | copy_from_user (arg : Nat) (ok : Bool)
  | firmware (call : FwCall) (status : efi_status_t)
  | copy_to_user (arg : Nat) (block : Egress) (ok : Bool)
  deriving DecidableEq

/-- Whether an event is a firmware call. -/
def Event.isFirmware : Event → Bool
  | .firmware _ _ => true
  | _ => false

/-- Whether an event is a copy from user memory. -/
def Event.isIngest : Event → Bool
  | .copy_from_user _ _ => true
  | _ => false

/-- Whether an event is a copy to user memory. -/
def Event.isEgress : Event → Bool
  | .copy_to_user _ _ _ => true
  | _ => false

/-- The outcome of one `efi_runtime_ioctl` call: the returned `long`, the user memory
and firmware state it leaves, and the events in the order they happened. -/
structure Outcome (U σ : Type) where
  ret : Int
  user : U
  fw : σ
  trace : List Event

/-! ## The dispatcher -/

/-- The dispatcher `efi_runtime_ioctl(file, cmd, arg)`, run on user memory `u` and
firmware state `s`; `file` is unused by the source and left out. -/
def efi_runtime_ioctl {U σ : Type} (k : Target) (user : Boundary U) (efi : Firmware U σ)
    (locals : Locals) (cmd arg : Nat) (u : U) (s : σ) : Outcome U σ :=
  if cmd = k.EFI_RUNTIME_GET_VARIABLE then
    match user.getvariable.copy_from_user u arg with
    | none => ⟨-EFAULT, u, s, [.copy_from_user arg false]⟩
    | some getvariable =>
      let r := efi.get_variable s u getvariable.variable_name getvariable.VendorGuid
        getvariable.Attributes getvariable.DataSize getvariable.Data
      let call := FwCall.get_variable getvariable.variable_name getvariable.VendorGuid
        getvariable.Attributes getvariable.DataSize getvariable.Data
      let status := r.status
      let getvariable := r.block
      let u := r.user
      if status = EFI_SUCCESS then
        match user.getvariable.copy_to_user u arg getvariable with
        | some u1 => ⟨0, u1, r.state, [.copy_from_user arg true, .firmware call status,
            .copy_to_user arg (.getvariable getvariable) true]⟩
        | none => ⟨-EFAULT, u, r.state, [.copy_from_user arg true, .firmware call status,
            .copy_to_user arg (.getvariable getvariable) false]⟩
      else
        ⟨-EINVAL, u, r.state, [.copy_from_user arg true, .firmware call status]⟩
  else if cmd = k.EFI_RUNTIME_SET_VARIABLE then
    match user.setvariable.copy_from_user u arg with
    | none => ⟨-EFAULT, u, s, [.copy_from_user arg false]⟩
    | some setvariable =>
      let r := efi.set_variable s setvariable.variable_name setvariable.VendorGuid
        setvariable.Attributes setvariable.DataSize setvariable.Data
      let call := FwCall.set_variable setvariable.variable_name setvariable.VendorGuid
        setvariable.Attributes setvariable.DataSize setvariable.Data
      let status := r.1
      ⟨if status = EFI_SUCCESS then 0 else -EINVAL, u, r.2,
        [.copy_from_user arg true, .firmware call status]⟩
  else if cmd = k.EFI_RUNTIME_GET_TIME then
    let r := efi.get_time s locals.eft locals.cap
    let status := r.status
    let eft := r.eft
    let cap := r.cap
    if status ≠ EFI_SUCCESS then
      ⟨-EINVAL, u, r.state, [.firmware .get_time status]⟩
    else
      let gettime := locals.gettime
      let gettime := { gettime with
        Capabilities := { gettime.Capabilities with Resolution := cap.resolution } }
      let gettime := { gettime with
        Capabilities := { gettime.Capabilities with Accuracy := cap.accuracy } }
      let gettime := { gettime with
        Capabilities := { gettime.Capabilities with SetsToZero := cap.sets_to_zero } }
      let gettime := { gettime with Time := convert_from_efi_time eft gettime.Time }
      match user.gettime.copy_to_user u arg gettime with
      | some u1 => ⟨0, u1, r.state, [.firmware .get_time status,
          .copy_to_user arg (.gettime gettime) true]⟩
      | none => ⟨-EFAULT, u, r.state, [.firmware .get_time status,
          .copy_to_user arg (.gettime gettime) false]⟩
  else if cmd = k.EFI_RUNTIME_SET_TIME then
    match user.settime.copy_from_user u arg with
    | none => ⟨-EFAULT, u, s, [.copy_from_user arg false]⟩
    | some settime =>
      let eft := convert_to_efi_time k.sizeof_ptr locals.eft settime.Time
      let r := efi.set_time s eft
      let status := r.1
      ⟨if status = EFI_SUCCESS then 0 else -EINVAL, u, r.2,
        [.copy_from_user arg true, .firmware (.set_time eft) status]⟩
  else if cmd = k.EFI_RUNTIME_GET_WAKETIME then
    let r := efi.get_wakeup_time s locals.enabled locals.pending locals.eft
    let status := r.status
    let enabled := r.enabled
    let pending := r.pending
    let eft := r.eft
    if status ≠ EFI_SUCCESS then
      ⟨-EINVAL, u, r.state, [.firmware .get_wakeup_time status]⟩
    else
      let getwakeuptime := locals.getwakeuptime
      let getwakeuptime := { getwakeuptime with Enabled := enabled }
      let getwakeuptime := { getwakeuptime with Pending := pending }
      let getwakeuptime := { getwakeuptime with
        Time := convert_from_efi_time eft getwakeuptime.Time }
      match user.getwakeuptime.copy_to_user u arg getwakeuptime with
      | some u1 => ⟨0, u1, r.state, [.firmware .get_wakeup_time status,
          .copy_to_user arg (.getwakeuptime getwakeuptime) true]⟩
      | none => ⟨-EFAULT, u, r.state, [.firmware .get_wakeup_time status,
          .copy_to_user arg (.getwakeuptime getwakeuptime) false]⟩
  else if cmd = k.EFI_RUNTIME_SET_WAKETIME then
    match user.setwakeuptime.copy_from_user u arg with
    | none => ⟨-EFAULT, u, s, [.copy_from_user arg false]⟩
    | some setwakeuptime =>
      let eft := convert_to_efi_time k.sizeof_ptr locals.eft setwakeuptime.Time
      let r := efi.set_wakeup_time s setwakeuptime.Enabled eft
      let status := r.1
      ⟨if status = EFI_SUCCESS then 0 else -EINVAL, u, r.2,
        [.copy_from_user arg true, .firmware (.set_wakeup_time setwakeuptime.Enabled eft)
          status]⟩
  else
    ⟨-ENOTTY, u, s, []⟩

/-- The semantic members of an external time record: all but the two reserved ones. -/
def EFI_TIME.sameSemantic (a b : EFI_TIME) : Prop :=
  a.Year = b.Year ∧ a.Month = b.Month ∧ a.Day = b.Day ∧ a.Hour = b.Hour ∧
    a.Minute = b.Minute ∧ a.Second = b.Second ∧ a.Nanosecond = b.Nanosecond ∧
    a.TimeZone = b.TimeZone ∧ a.Daylight = b.Daylight

/-- The firmware calls among the events of a trace, in order. -/
def firmwareCalls (trace : List Event) : List Event :=
  trace.filter Event.isFirmware

/-! ## A concrete instance

A small target, user memory and firmware on which the dispatcher can be evaluated.
They are used to instantiate the theorems below at concrete inputs. -/

namespace Sample

/-- An example target: 8-byte pointers, command numbers 1 to 6. -/
def target : Target :=
  { sizeof_ptr := 8
    EFI_RUNTIME_GET_VARIABLE := 1
    EFI_RUNTIME_SET_VARIABLE := 2
    EFI_RUNTIME_GET_TIME := 3
    EFI_RUNTIME_SET_TIME := 4
    EFI_RUNTIME_GET_WAKETIME := 5
    EFI_RUNTIME_SET_WAKETIME := 6
    distinct := by decide }

/-- What a mapped user address holds in the example memory. -/
inductive Cell where
  | getvariable (x : efi_getvariable)
  | setvariable (x : efi_setvariable)
  | gettime (x : efi_gettime)
  | settime (x : efi_settime)
  | getwakeuptime (x : efi_getwakeuptime)
  | setwakeuptime (x : efi_setwakeuptime)
  deriving DecidableEq

/-- The example user memory: the mapped addresses with their contents. -/
abbrev User := List (Nat × Cell)

/-- The content of the example memory at an address, if it is mapped. -/
def load (u : User) (arg : Nat) : Option Cell :=
  (u.find? (fun c => c.1 == arg)).map (fun c => c.2)

/-- The example memory with the content at a mapped address replaced; `none` when
the address is not mapped. -/
def store (u : User) (arg : Nat) (c : Cell) : Option User :=
  if (load u arg).isSome then
    some (u.map (fun e => if e.1 == arg then (arg, c) else e))
  else none

/-- The example boundary: a read succeeds on a mapped address that holds a block of
the requested type, a write succeeds on a mapped address. -/
def boundary : Boundary User :=
  { getvariable :=
      { copy_from_user := fun u arg =>
          match load u arg with | some (.getvariable x) => some x | _ => none
        copy_to_user := fun u arg x => store u arg (.getvariable x) }
    setvariable :=
      { copy_from_user := fun u arg =>
          match load u arg with | some (.setvariable x) => some x | _ => none
        copy_to_user := fun u arg x => store u arg (.setvariable x) }
    gettime :=
      { copy_from_user := fun u arg =>
          match load u arg with | some (.gettime x) => some x | _ => none
        copy_to_user := fun u arg x => store u arg (.gettime x) }
    settime :=
      { copy_from_user := fun u arg =>
          match load u arg with | some (.settime x) => some x | _ => none
        copy_to_user := fun u arg x => store u arg (.settime x) }
    getwakeuptime :=
      { copy_from_user := fun u arg =>
          match load u arg with | some (.getwakeuptime x) => some x | _ => none
        copy_to_user := fun u arg x => store u arg (.getwakeuptime x) }
    setwakeuptime :=
      { copy_from_user := fun u arg =>
          match load u arg with | some (.setwakeuptime x) => some x | _ => none
        copy_to_user := fun u arg x => store u arg (.setwakeuptime x) } }

/-- The state of the example firmware: one stored variable (its name and data), the
clock, and the wake alarm. -/
structure Nvram where
  var_name : Nat
  var_data : Nat
  clock : efi_time_t
  wake_enabled : Nat
  wake_pending : Nat
  wake_time : efi_time_t
  deriving DecidableEq

/-- The example firmware.  A variable is found by its name and answered in the local
block, user memory is left alone; a time with a month outside 1..12 is rejected with
status 2; the wake alarm stores what it is given. -/
def firmware : Firmware User Nvram :=
  { get_variable := fun s u name guid attr _size _data =>
      if name = s.var_name then ⟨EFI_SUCCESS, ⟨name, guid, attr, 8, s.var_data⟩, u, s⟩
      else ⟨14, ⟨name, guid, attr, _size, _data⟩, u, s⟩
    set_variable := fun s name _guid _attr size data =>
      if size = 0 then (2, s) else (EFI_SUCCESS, { s with var_name := name, var_data := data })
    get_time := fun s _eft _cap => ⟨EFI_SUCCESS, s.clock, ⟨0, 50000000, 0⟩, s⟩
    set_time := fun s eft =>
      if 1 ≤ eft.month ∧ eft.month ≤ 12 then (EFI_SUCCESS, { s with clock := eft })
      else (2, s)
    get_wakeup_time := fun s _enabled _pending _eft =>
      ⟨EFI_SUCCESS, s.wake_enabled, s.wake_pending, s.wake_time, s⟩
    set_wakeup_time := fun s enabled eft =>
      if 1 ≤ eft.month ∧ eft.month ≤ 12 then
        (EFI_SUCCESS, { s with wake_enabled := enabled, wake_time := eft })
      else (2, s) }

/-- An example external time: 2024-05-17 08:30:15, reserved members 7 and 9. -/
def time : EFI_TIME :=
  { Year := 2024, Month := 5, Day := 17, Hour := 8, Minute := 30, Second := 15, Pad1 := 7,
    Nanosecond := 123456789, TimeZone := -60, Daylight := 1, Pad2 := 9 }

/-- An example external time with the invalid month 13. -/
def badTime : EFI_TIME := { time with Month := 13 }

/-- An example firmware time: 1999-12-31 23:59:59. -/
def eft : efi_time_t :=
  { year := 1999, month := 12, day := 31, hour := 23, minute := 59, second := 59, pad1 := 0,
    nanosecond := 0, timezone := 2047, daylight := 0, pad2 := 0 }

/-- An example firmware state. -/
def nvram : Nvram :=
  { var_name := 66, var_data := 4660, clock := eft, wake_enabled := 1, wake_pending := 1,
    wake_time := eft }

/-- Example stale contents of the local variables. -/
def locals : Locals :=
  { eft := { year := 11, month := 22, day := 33, hour := 44, minute := 55, second := 66,
             pad1 := 77, nanosecond := 88, timezone := -99, daylight := 111, pad2 := 222 }
    cap := ⟨5, 6, 7⟩
    gettime := ⟨⟨1, 2, 3⟩, badTime⟩
    getwakeuptime := ⟨9, 9, badTime⟩
    enabled := 200
    pending := 201 }

/-- An example user memory: one block of each request type at addresses 100 to 600;
every other address is unmapped. -/
def user : User :=
  [(100, .getvariable ⟨66, 1, 2, 16, 0⟩), (101, .getvariable ⟨67, 1, 2, 16, 0⟩),
   (200, .setvariable ⟨66, 1, 2, 4, 99⟩), (201, .setvariable ⟨66, 1, 2, 0, 99⟩),
   (300, .gettime ⟨⟨0, 0, 0⟩, time⟩),
   (400, .settime ⟨time⟩), (401, .settime ⟨badTime⟩),
   (500, .getwakeuptime ⟨0, 0, time⟩),
   (600, .setwakeuptime ⟨0, time⟩), (601, .setwakeuptime ⟨1, badTime⟩)]

/-- The example user memory after the block at 300 has been replaced by the example
firmware's answer to get-time. -/
def userGotTime : User :=
  [(100, .getvariable ⟨66, 1, 2, 16, 0⟩), (101, .getvariable ⟨67, 1, 2, 16, 0⟩),
   (200, .setvariable ⟨66, 1, 2, 4, 99⟩), (201, .setvariable ⟨66, 1, 2, 0, 99⟩),
   (300, .gettime ⟨⟨0, 50000000, 0⟩, convert_from_efi_time eft badTime⟩),
   (400, .settime ⟨time⟩), (401, .settime ⟨badTime⟩),
   (500, .getwakeuptime ⟨0, 0, time⟩),
   (600, .setwakeuptime ⟨0, time⟩), (601, .setwakeuptime ⟨1, badTime⟩)]

/-- A second example user memory: it consists of one `efi_getvariable` block, which
lies at addresses 100 to 104, one member per address.  The example boundary on it
reads and writes that block at address 100 and faults everywhere else. -/
def blockBoundary : Boundary efi_getvariable :=
  { getvariable :=
      { copy_from_user := fun u arg => if arg = 100 then some u else none
        copy_to_user := fun _ arg x => if arg = 100 then some x else none }
    setvariable := { copy_from_user := fun _ _ => none, copy_to_user := fun _ _ _ => none }
    gettime := { copy_from_user := fun _ _ => none, copy_to_user := fun _ _ _ => none }
    settime := { copy_from_user := fun _ _ => none, copy_to_user := fun _ _ _ => none }
    getwakeuptime := { copy_from_user := fun _ _ => none, copy_to_user := fun _ _ _ => none }
    setwakeuptime :=
      { copy_from_user := fun _ _ => none, copy_to_user := fun _ _ _ => none } }

/-- The word of the second example memory at an address (0 outside the block). -/
def peek (u : efi_getvariable) (addr : Nat) : Nat :=
  if addr = 100 then u.variable_name
  else if addr = 101 then u.VendorGuid
  else if addr = 102 then u.Attributes
  else if addr = 103 then u.DataSize
  else if addr = 104 then u.Data
  else 0

/-- The second example memory after a word has been written at an address (writes
outside the block are dropped). -/
def poke (u : efi_getvariable) (addr val : Nat) : efi_getvariable :=
  if addr = 100 then { u with variable_name := val }
  else if addr = 101 then { u with VendorGuid := val }
  else if addr = 102 then { u with Attributes := val }
  else if addr = 103 then { u with DataSize := val }
  else if addr = 104 then { u with Data := val }
  else u

/-- A second example firmware, without state, holding one variable of 8 bytes.
`get_variable` reads the capacity through the data-size address; when it is below 8
it writes the needed size 8 through that address and returns status 5 (buffer too
small), otherwise it writes the data through the data address and the size through
the data-size address and returns `EFI_SUCCESS`.  The arguments are passed by value,
so the local block of the driver is the ingested one. -/
def sizingFirmware : Firmware efi_getvariable Unit :=
  { get_variable := fun s u name guid attr size data =>
      if peek u size < 8 then ⟨5, ⟨name, guid, attr, size, data⟩, poke u size 8, s⟩
      else ⟨EFI_SUCCESS, ⟨name, guid, attr, size, data⟩, poke (poke u data 4660) size 8, s⟩
    set_variable := fun s _ _ _ _ _ => (EFI_SUCCESS, s)
    get_time := fun s eft cap => ⟨EFI_SUCCESS, eft, cap, s⟩
    set_time := fun s _ => (EFI_SUCCESS, s)
    get_wakeup_time := fun s enabled pending eft => ⟨EFI_SUCCESS, enabled, pending, eft, s⟩
    set_wakeup_time := fun s _ _ => (EFI_SUCCESS, s) }

/-- An argument block for the second example memory whose data-size address, 102, is
the address of its own attributes member, which holds 0. -/
def aliasedBlock : efi_getvariable :=
  { variable_name := 200, VendorGuid := 201, Attributes := 0, DataSize := 102, Data := 204 }

end Sample

end EfiRuntime

namespace EfiRuntime

/-! ## The time converters -/

/-- C1: converting an external time record to the internal form and back reproduces
its year, month, day, hour, minute, second, nanosecond, timezone and daylight,
whatever the pointer size and whatever the two destinations held before. -/
theorem convert_round_trip (sizeof_eft : Nat) (eft0 : efi_time_t) (time0 t : EFI_TIME) :
    (convert_from_efi_time (convert_to_efi_time sizeof_eft eft0 t) time0).Year = t.Year ∧
    (convert_from_efi_time (convert_to_efi_time sizeof_eft eft0 t) time0).Month = t.Month ∧
    (convert_from_efi_time (convert_to_efi_time sizeof_eft eft0 t) time0).Day = t.Day ∧
    (convert_from_efi_time (convert_to_efi_time sizeof_eft eft0 t) time0).Hour = t.Hour ∧
    (convert_from_efi_time (convert_to_efi_time sizeof_eft eft0 t) time0).Minute = t.Minute ∧
    (convert_from_efi_time (convert_to_efi_time sizeof_eft eft0 t) time0).Second = t.Second ∧
    (convert_from_efi_time (convert_to_efi_time sizeof_eft eft0 t) time0).Nanosecond
      = t.Nanosecond ∧
    (convert_from_efi_time (convert_to_efi_time sizeof_eft eft0 t) time0).TimeZone
      = t.TimeZone ∧
    (convert_from_efi_time (convert_to_efi_time sizeof_eft eft0 t) time0).Daylight
      = t.Daylight :=
  ⟨rfl, rfl, rfl, rfl, rfl, rfl, rfl, rfl, rfl⟩

/-- C7, as stated, fails: an external record whose reserved members are 7 and 9 is
converted to an internal record whose reserved members are 7 and 9, not zero. -/
theorem convert_to_efi_time_pads_not_zeroed :
    ¬ ((convert_to_efi_time 8
          { year := 0, month := 0, day := 0, hour := 0, minute := 0, second := 0, pad1 := 0,
            nanosecond := 0, timezone := 0, daylight := 0, pad2 := 0 }
          { Year := 2024, Month := 5, Day := 17, Hour := 8, Minute := 30, Second := 15,
            Pad1 := 7, Nanosecond := 0, TimeZone := 0, Daylight := 0, Pad2 := 9 }).pad1 = 0 ∧
       (convert_to_efi_time 8
          { year := 0, month := 0, day := 0, hour := 0, minute := 0, second := 0, pad1 := 0,
            nanosecond := 0, timezone := 0, daylight := 0, pad2 := 0 }
          { Year := 2024, Month := 5, Day := 17, Hour := 8, Minute := 30, Second := 15,
            Pad1 := 7, Nanosecond := 0, TimeZone := 0, Daylight := 0, Pad2 := 9 }).pad2 = 0) := by
  decide

/-- C7, amended: the internal record produced by `convert_to_efi_time` carries the
reserved members of the external record unchanged, `pad1 = Pad1` and `pad2 = Pad2`,
whatever the pointer size and whatever the destination held before. -/
theorem convert_to_efi_time_pads_carried (sizeof_eft : Nat) (eft0 : efi_time_t)
    (t : EFI_TIME) :
    (convert_to_efi_time sizeof_eft eft0 t).pad1 = t.Pad1 ∧
    (convert_to_efi_time sizeof_eft eft0 t).pad2 = t.Pad2 :=
  ⟨rfl, rfl⟩

/-! ## The dispatcher, command by command -/

theorem Target.codes_ne (k : Target) :
    k.EFI_RUNTIME_SET_VARIABLE ≠ k.EFI_RUNTIME_GET_VARIABLE ∧
    k.EFI_RUNTIME_GET_TIME ≠ k.EFI_RUNTIME_GET_VARIABLE ∧
    k.EFI_RUNTIME_GET_TIME ≠ k.EFI_RUNTIME_SET_VARIABLE ∧
    k.EFI_RUNTIME_SET_TIME ≠ k.EFI_RUNTIME_GET_VARIABLE ∧
    k.EFI_RUNTIME_SET_TIME ≠ k.EFI_RUNTIME_SET_VARIABLE ∧
    k.EFI_RUNTIME_SET_TIME ≠ k.EFI_RUNTIME_GET_TIME ∧
    k.EFI_RUNTIME_GET_WAKETIME ≠ k.EFI_RUNTIME_GET_VARIABLE ∧
    k.EFI_RUNTIME_GET_WAKETIME ≠ k.EFI_RUNTIME_SET_VARIABLE ∧
    k.EFI_RUNTIME_GET_WAKETIME ≠ k.EFI_RUNTIME_GET_TIME ∧
    k.EFI_RUNTIME_GET_WAKETIME ≠ k.EFI_RUNTIME_SET_TIME ∧
    k.EFI_RUNTIME_SET_WAKETIME ≠ k.EFI_RUNTIME_GET_VARIABLE ∧
    k.EFI_RUNTIME_SET_WAKETIME ≠ k.EFI_RUNTIME_SET_VARIABLE ∧
    k.EFI_RUNTIME_SET_WAKETIME ≠ k.EFI_RUNTIME_GET_TIME ∧
    k.EFI_RUNTIME_SET_WAKETIME ≠ k.EFI_RUNTIME_SET_TIME ∧
    k.EFI_RUNTIME_SET_WAKETIME ≠ k.EFI_RUNTIME_GET_WAKETIME := by
  have h := k.distinct
  simp only [List.nodup_cons, List.mem_cons, List.mem_singleton, not_or] at h
  obtain ⟨⟨a1, a2, a3, a4, a5⟩, ⟨b1, b2, b3, b4⟩, ⟨c1, c2, c3⟩, ⟨d1, d2⟩, e1, -⟩ := h
  exact ⟨Ne.symm a1, Ne.symm a2, Ne.symm b1, Ne.symm a3, Ne.symm b2, Ne.symm c1,
    Ne.symm a4, Ne.symm b3, Ne.symm c2, Ne.symm d1, Ne.symm a5.1, Ne.symm b4.1,
    Ne.symm c3.1, Ne.symm d2.1, Ne.symm e1.1⟩

variable {U σ : Type}

/-- C2: a command number that is none of the six supported ones is answered with
`-ENOTTY`; nothing is copied from or to user memory, no firmware call is issued, and
user memory and firmware state are left as they were, whatever `arg`, the user
memory and the firmware are.  `-ENOTTY` is not the firmware-failure result. -/
theorem ioctl_unknown_command (k : Target) (user : Boundary U) (efi : Firmware U σ)
    (locals : Locals) (cmd arg : Nat) (u : U) (s : σ) (h : cmd ∉ k.supported) :
    (efi_runtime_ioctl k user efi locals cmd arg u s).ret = -ENOTTY ∧
    (efi_runtime_ioctl k user efi locals cmd arg u s).trace = [] ∧
    (efi_runtime_ioctl k user efi locals cmd arg u s).user = u ∧
    (efi_runtime_ioctl k user efi locals cmd arg u s).fw = s ∧
    -ENOTTY ≠ -EINVAL := by
  simp only [Target.supported, List.mem_cons, List.mem_singleton, List.not_mem_nil,
    or_false, not_or] at h
  obtain ⟨h1, h2, h3, h4, h5, h6⟩ := h
  simp only [efi_runtime_ioctl, h1, h2, h3, h4, h5, h6, if_false]
  refine ⟨trivial, trivial, trivial, trivial, by decide⟩

theorem ioctl_unknown_command_witness :
    (99 : Nat) ∉ Sample.target.supported ∧
    (efi_runtime_ioctl Sample.target Sample.boundary Sample.firmware Sample.locals 99 400
      Sample.user Sample.nvram).ret = -ENOTTY ∧
    (efi_runtime_ioctl Sample.target Sample.boundary Sample.firmware Sample.locals 99 400
      Sample.user Sample.nvram).trace = [] ∧
    (efi_runtime_ioctl Sample.target Sample.boundary Sample.firmware Sample.locals 99 400
      Sample.user Sample.nvram).user = Sample.user ∧
    (efi_runtime_ioctl Sample.target Sample.boundary Sample.firmware Sample.locals 99 400
      Sample.user Sample.nvram).fw = Sample.nvram ∧
    -ENOTTY ≠ -EINVAL :=
  ⟨by decide, ioctl_unknown_command Sample.target Sample.boundary Sample.firmware
    Sample.locals 99 400 Sample.user Sample.nvram (by decide)⟩

/-- C4: a boundary fault is reported as `-EFAULT`.
(1) For GetVariable, SetVariable, SetTime and SetWakeupTime, when the copy of the
argument block from user memory fails the result is `-EFAULT`, no firmware call is
issued and the firmware state is left as it was.
(2) For GetVariable, GetTime and GetWakeupTime, when the firmware call returns
`EFI_SUCCESS` and the copy of the result block to user memory fails, the result is
`-EFAULT`, which is neither `-EINVAL` nor 0.
(3) In every run in which a copy to user memory fails, the command is GetVariable,
GetTime or GetWakeupTime, the one firmware call returned `EFI_SUCCESS`, and the
result is `-EFAULT`. -/
theorem ioctl_boundary_fault_is_EFAULT :
    (∀ (U σ : Type) (k : Target) (user : Boundary U) (efi : Firmware U σ) (locals : Locals)
        (cmd arg : Nat) (u : U) (s : σ),
      ((cmd = k.EFI_RUNTIME_GET_VARIABLE ∧ user.getvariable.copy_from_user u arg = none) ∨
       (cmd = k.EFI_RUNTIME_SET_VARIABLE ∧ user.setvariable.copy_from_user u arg = none) ∨
       (cmd = k.EFI_RUNTIME_SET_TIME ∧ user.settime.copy_from_user u arg = none) ∨
       (cmd = k.EFI_RUNTIME_SET_WAKETIME ∧
          user.setwakeuptime.copy_from_user u arg = none)) →
      (efi_runtime_ioctl k user efi locals cmd arg u s).ret = -EFAULT ∧
      firmwareCalls (efi_runtime_ioctl k user efi locals cmd arg u s).trace = [] ∧
      (efi_runtime_ioctl k user efi locals cmd arg u s).fw = s) ∧
    (∀ (U σ : Type) (k : Target) (user : Boundary U) (efi : Firmware U σ) (locals : Locals)
        (cmd arg : Nat) (u : U) (s : σ),
      ((cmd = k.EFI_RUNTIME_GET_VARIABLE ∧ ∃ gv,
          user.getvariable.copy_from_user u arg = some gv ∧
          (efi.get_variable s u gv.variable_name gv.VendorGuid gv.Attributes gv.DataSize
            gv.Data).status = EFI_SUCCESS ∧
          user.getvariable.copy_to_user
            (efi.get_variable s u gv.variable_name gv.VendorGuid gv.Attributes gv.DataSize
              gv.Data).user arg
            (efi.get_variable s u gv.variable_name gv.VendorGuid gv.Attributes gv.DataSize
              gv.Data).block = none) ∨
       (cmd = k.EFI_RUNTIME_GET_TIME ∧
          (efi.get_time s locals.eft locals.cap).status = EFI_SUCCESS ∧
          user.gettime.copy_to_user u arg
            ⟨⟨(efi.get_time s locals.eft locals.cap).cap.resolution,
              (efi.get_time s locals.eft locals.cap).cap.accuracy,
              (efi.get_time s locals.eft locals.cap).cap.sets_to_zero⟩,
             convert_from_efi_time (efi.get_time s locals.eft locals.cap).eft
               locals.gettime.Time⟩ = none) ∨
       (cmd = k.EFI_RUNTIME_GET_WAKETIME ∧
          (efi.get_wakeup_time s locals.enabled locals.pending locals.eft).status
            = EFI_SUCCESS ∧
          user.getwakeuptime.copy_to_user u arg
            ⟨(efi.get_wakeup_time s locals.enabled locals.pending locals.eft).enabled,
             (efi.get_wakeup_time s locals.enabled locals.pending locals.eft).pending,
             convert_from_efi_time
               (efi.get_wakeup_time s locals.enabled locals.pending locals.eft).eft
               locals.getwakeuptime.Time⟩ = none)) →
      (efi_runtime_ioctl k user efi locals cmd arg u s).ret = -EFAULT ∧
      (efi_runtime_ioctl k user efi locals cmd arg u s).ret ≠ -EINVAL ∧
      (efi_runtime_ioctl k user efi locals cmd arg u s).ret ≠ 0) ∧
    (∀ (U σ : Type) (k : Target) (user : Boundary U) (efi : Firmware U σ) (locals : Locals)
        (cmd arg : Nat) (u : U) (s : σ) (dst : Nat) (block : Egress),
      Event.copy_to_user dst block false ∈
        (efi_runtime_ioctl k user efi locals cmd arg u s).trace →
      (efi_runtime_ioctl k user efi locals cmd arg u s).ret = -EFAULT ∧
      (cmd = k.EFI_RUNTIME_GET_VARIABLE ∨ cmd = k.EFI_RUNTIME_GET_TIME ∨
        cmd = k.EFI_RUNTIME_GET_WAKETIME) ∧
      ∃ call, firmwareCalls (efi_runtime_ioctl k user efi locals cmd arg u s).trace =
        [Event.firmware call EFI_SUCCESS]) := by
  have h1 : -EFAULT ≠ -EINVAL := by decide
  have h2 : -EFAULT ≠ 0 := by decide
  refine ⟨?_, ?_, ?_⟩
  · intro U σ k user efi locals cmd arg u s h
    have hne := k.codes_ne
    rcases h with ⟨hc, h⟩ | ⟨hc, h⟩ | ⟨hc, h⟩ | ⟨hc, h⟩ <;> subst hc <;>
      simp [efi_runtime_ioctl, hne, h, firmwareCalls, Event.isFirmware]
  · intro U σ k user efi locals cmd arg u s h
    have hne := k.codes_ne
    rcases h with ⟨hc, gv, hin, hst, hout⟩ | ⟨hc, hst, hout⟩ | ⟨hc, hst, hout⟩ <;>
      subst hc
    · simp [efi_runtime_ioctl, hin, hst, hout, h1, h2]
    · simp [efi_runtime_ioctl, hne, hst, hout, h1, h2]
    · simp [efi_runtime_ioctl, hne, hst, hout, h1, h2]
  · intro U σ k user efi locals cmd arg u s dst block
    simp only [efi_runtime_ioctl]
    repeat' split
    all_goals simp_all [firmwareCalls, Event.isFirmware]

theorem ioctl_boundary_fault_is_EFAULT_witness :
    (((4 : Nat) = Sample.target.EFI_RUNTIME_SET_TIME ∧
        Sample.boundary.settime.copy_from_user Sample.user 999 = none) ∧
      (efi_runtime_ioctl Sample.target Sample.boundary Sample.firmware Sample.locals 4 999
        Sample.user Sample.nvram).ret = -EFAULT ∧
      firmwareCalls (efi_runtime_ioctl Sample.target Sample.boundary Sample.firmware
        Sample.locals 4 999 Sample.user Sample.nvram).trace = [] ∧
      (efi_runtime_ioctl Sample.target Sample.boundary Sample.firmware Sample.locals 4 999
        Sample.user Sample.nvram).fw = Sample.nvram) ∧
    (((5 : Nat) = Sample.target.EFI_RUNTIME_GET_WAKETIME ∧
        (Sample.firmware.get_wakeup_time Sample.nvram Sample.locals.enabled
          Sample.locals.pending Sample.locals.eft).status = EFI_SUCCESS ∧
        Sample.boundary.getwakeuptime.copy_to_user Sample.user 999
          ⟨1, 1, convert_from_efi_time Sample.eft Sample.badTime⟩ = none) ∧
      (efi_runtime_ioctl Sample.target Sample.boundary Sample.firmware Sample.locals 5 999
        Sample.user Sample.nvram).ret = -EFAULT ∧
      (efi_runtime_ioctl Sample.target Sample.boundary Sample.firmware Sample.locals 5 999
        Sample.user Sample.nvram).ret ≠ -EINVAL ∧
      (efi_runtime_ioctl Sample.target Sample.boundary Sample.firmware Sample.locals 5 999
        Sample.user Sample.nvram).ret ≠ 0) ∧
    (Event.copy_to_user 999
        (.gettime ⟨⟨0, 50000000, 0⟩, convert_from_efi_time Sample.eft Sample.badTime⟩) false ∈
        (efi_runtime_ioctl Sample.target Sample.boundary Sample.firmware Sample.locals 3 999
          Sample.user Sample.nvram).trace ∧
      (efi_runtime_ioctl Sample.target Sample.boundary Sample.firmware Sample.locals 3 999
        Sample.user Sample.nvram).ret = -EFAULT ∧
      ((3 : Nat) = Sample.target.EFI_RUNTIME_GET_VARIABLE ∨
        (3 : Nat) = Sample.target.EFI_RUNTIME_GET_TIME ∨
        (3 : Nat) = Sample.target.EFI_RUNTIME_GET_WAKETIME) ∧
      ∃ call, firmwareCalls (efi_runtime_ioctl Sample.target Sample.boundary Sample.firmware
        Sample.locals 3 999 Sample.user Sample.nvram).trace =
        [Event.firmware call EFI_SUCCESS]) :=
  ⟨⟨⟨by decide, by decide⟩,
    ioctl_boundary_fault_is_EFAULT.1 Sample.User Sample.Nvram Sample.target Sample.boundary
      Sample.firmware Sample.locals 4 999 Sample.user Sample.nvram
      (Or.inr (Or.inr (Or.inl ⟨by decide, by decide⟩)))⟩,
   ⟨⟨by decide, by decide, by decide⟩,
    ioctl_boundary_fault_is_EFAULT.2.1 Sample.User Sample.Nvram Sample.target
      Sample.boundary Sample.firmware Sample.locals 5 999 Sample.user Sample.nvram
      (Or.inr (Or.inr ⟨by decide, by decide, by decide⟩))⟩,
   ⟨by decide,
    ioctl_boundary_fault_is_EFAULT.2.2 Sample.User Sample.Nvram Sample.target
      Sample.boundary Sample.firmware Sample.locals 3 999 Sample.user Sample.nvram 999
      (.gettime ⟨⟨0, 50000000, 0⟩, convert_from_efi_time Sample.eft Sample.badTime⟩)
      (by decide)⟩⟩

/-- C5, as stated, fails.  GetVariable is run on a user memory that consists of the
argument block at address 100, whose data-size member holds the address 102 of the
block's own attributes member.  The firmware finds the capacity 0 there, writes the
needed size 8 through that address and reports a failure; the dispatcher returns the
non-zero `-EINVAL`, and the caller's argument block has changed: its attributes
member was 0 and is 8. -/
theorem ioctl_error_return_changes_block :
    (efi_runtime_ioctl Sample.target Sample.blockBoundary Sample.sizingFirmware
        Sample.locals 1 100 Sample.aliasedBlock ()).ret = -EINVAL ∧
    (efi_runtime_ioctl Sample.target Sample.blockBoundary Sample.sizingFirmware
        Sample.locals 1 100 Sample.aliasedBlock ()).ret ≠ 0 ∧
    Sample.blockBoundary.getvariable.copy_from_user Sample.aliasedBlock 100
      = some ⟨200, 201, 0, 102, 204⟩ ∧
    Sample.blockBoundary.getvariable.copy_from_user
      (efi_runtime_ioctl Sample.target Sample.blockBoundary Sample.sizingFirmware
        Sample.locals 1 100 Sample.aliasedBlock ()).user 100
      = some ⟨200, 201, 8, 102, 204⟩ ∧
    (efi_runtime_ioctl Sample.target Sample.blockBoundary Sample.sizingFirmware
        Sample.locals 1 100 Sample.aliasedBlock ()).user ≠ Sample.aliasedBlock := by
  decide

/-- C5, amended: no output of the driver on error.
(1) Whenever the dispatcher returns a non-zero result, no copy to user memory has
succeeded; for every command other than GetVariable user memory is left exactly as
it was; for GetVariable it is as it was when the ingest fails and otherwise exactly
as the firmware get-variable call left it (that call is handed the caller-supplied
addresses of the block and writes through them).
(2) GetVariable whose firmware call fails returns `-EINVAL`, attempts no copy to
user memory, and leaves user memory as the firmware call left it.
(3) SetVariable, SetTime and SetWakeupTime leave user memory as it was and attempt
no copy to user memory, whatever they return. -/
theorem ioctl_no_output_on_error :
    (∀ (U σ : Type) (k : Target) (user : Boundary U) (efi : Firmware U σ) (locals : Locals)
        (cmd arg : Nat) (u : U) (s : σ),
      (efi_runtime_ioctl k user efi locals cmd arg u s).ret ≠ 0 →
      (∀ dst block, Event.copy_to_user dst block true ∉
        (efi_runtime_ioctl k user efi locals cmd arg u s).trace) ∧
      (cmd ≠ k.EFI_RUNTIME_GET_VARIABLE →
        (efi_runtime_ioctl k user efi locals cmd arg u s).user = u) ∧
      (cmd = k.EFI_RUNTIME_GET_VARIABLE →
        user.getvariable.copy_from_user u arg = none →
        (efi_runtime_ioctl k user efi locals cmd arg u s).user = u) ∧
      (cmd = k.EFI_RUNTIME_GET_VARIABLE →
        ∀ gv, user.getvariable.copy_from_user u arg = some gv →
        (efi_runtime_ioctl k user efi locals cmd arg u s).user =
          (efi.get_variable s u gv.variable_name gv.VendorGuid gv.Attributes gv.DataSize
            gv.Data).user)) ∧
    (∀ (U σ : Type) (k : Target) (user : Boundary U) (efi : Firmware U σ) (locals : Locals)
        (arg : Nat) (u : U) (s : σ) (gv : efi_getvariable),
      user.getvariable.copy_from_user u arg = some gv →
      (efi.get_variable s u gv.variable_name gv.VendorGuid gv.Attributes gv.DataSize
        gv.Data).status ≠ EFI_SUCCESS →
      (efi_runtime_ioctl k user efi locals k.EFI_RUNTIME_GET_VARIABLE arg u s).ret
        = -EINVAL ∧
      (efi_runtime_ioctl k user efi locals k.EFI_RUNTIME_GET_VARIABLE arg u s).user =
        (efi.get_variable s u gv.variable_name gv.VendorGuid gv.Attributes gv.DataSize
          gv.Data).user ∧
      ∀ e ∈ (efi_runtime_ioctl k user efi locals k.EFI_RUNTIME_GET_VARIABLE arg u s).trace,
        e.isEgress = false) ∧
    (∀ (U σ : Type) (k : Target) (user : Boundary U) (efi : Firmware U σ) (locals : Locals)
        (cmd arg : Nat) (u : U) (s : σ),
      (cmd = k.EFI_RUNTIME_SET_VARIABLE ∨ cmd = k.EFI_RUNTIME_SET_TIME ∨
        cmd = k.EFI_RUNTIME_SET_WAKETIME) →
      (efi_runtime_ioctl k user efi locals cmd arg u s).user = u ∧
      ∀ e ∈ (efi_runtime_ioctl k user efi locals cmd arg u s).trace,
        e.isEgress = false) := by
  refine ⟨?_, ?_, ?_⟩
  · intro U σ k user efi locals cmd arg u s
    refine fun hret => ⟨?_, ?_, ?_, ?_⟩
    · revert hret
      simp only [efi_runtime_ioctl]
      repeat' split
      all_goals simp_all
    · revert hret
      simp only [efi_runtime_ioctl]
      repeat' split
      all_goals simp_all
    · intro hc hin
      subst hc
      simp [efi_runtime_ioctl, hin]
    · intro hc gv hin
      subst hc
      revert hret
      simp only [efi_runtime_ioctl, hin, if_true]
      repeat' split
      all_goals simp_all
  · intro U σ k user efi locals arg u s gv hin hst
    simp [efi_runtime_ioctl, hin, hst, Event.isEgress]
  · intro U σ k user efi locals cmd arg u s h
    have hne := k.codes_ne
    rcases h with hc | hc | hc
    · subst hc
      cases hin : user.setvariable.copy_from_user u arg <;>
        simp [efi_runtime_ioctl, hne, hin, Event.isEgress]
    · subst hc
      cases hin : user.settime.copy_from_user u arg <;>
        simp [efi_runtime_ioctl, hne, hin, Event.isEgress]
    · subst hc
      cases hin : user.setwakeuptime.copy_from_user u arg <;>
        simp [efi_runtime_ioctl, hne, hin, Event.isEgress]

theorem ioctl_no_output_on_error_witness :
    ((efi_runtime_ioctl Sample.target Sample.boundary Sample.firmware Sample.locals 3 999
        Sample.user Sample.nvram).ret ≠ 0 ∧
      (∀ dst block, Event.copy_to_user dst block true ∉
        (efi_runtime_ioctl Sample.target Sample.boundary Sample.firmware Sample.locals 3 999
        Sample.user Sample.nvram).trace) ∧
      ((3 : Nat) ≠ Sample.target.EFI_RUNTIME_GET_VARIABLE ∧
        (efi_runtime_ioctl Sample.target Sample.boundary Sample.firmware Sample.locals 3 999
        Sample.user Sample.nvram).user = Sample.user)) ∧
    (((efi_runtime_ioctl Sample.target Sample.blockBoundary Sample.sizingFirmware
        Sample.locals 1 100 Sample.aliasedBlock ()).ret ≠ 0 ∧
        (1 : Nat) = Sample.target.EFI_RUNTIME_GET_VARIABLE ∧
        Sample.blockBoundary.getvariable.copy_from_user Sample.aliasedBlock 100
          = some Sample.aliasedBlock) ∧
      (efi_runtime_ioctl Sample.target Sample.blockBoundary Sample.sizingFirmware
        Sample.locals 1 100 Sample.aliasedBlock ()).user =
        (Sample.sizingFirmware.get_variable () Sample.aliasedBlock 200 201 0 102 204).user) ∧
    ((Sample.boundary.getvariable.copy_from_user Sample.user 101 = some ⟨67, 1, 2, 16, 0⟩ ∧
        (Sample.firmware.get_variable Sample.nvram Sample.user 67 1 2 16 0).status
          ≠ EFI_SUCCESS) ∧
      (efi_runtime_ioctl Sample.target Sample.boundary Sample.firmware Sample.locals 1 101
        Sample.user Sample.nvram).ret = -EINVAL ∧
      (efi_runtime_ioctl Sample.target Sample.boundary Sample.firmware Sample.locals 1 101
        Sample.user Sample.nvram).user =
        (Sample.firmware.get_variable Sample.nvram Sample.user 67 1 2 16 0).user ∧
      ∀ e ∈ (efi_runtime_ioctl Sample.target Sample.boundary Sample.firmware Sample.locals 1 101
        Sample.user Sample.nvram).trace, e.isEgress = false) ∧
    (((2 : Nat) = Sample.target.EFI_RUNTIME_SET_VARIABLE ∨
        (2 : Nat) = Sample.target.EFI_RUNTIME_SET_TIME ∨
        (2 : Nat) = Sample.target.EFI_RUNTIME_SET_WAKETIME) ∧
      (efi_runtime_ioctl Sample.target Sample.boundary Sample.firmware Sample.locals 2 200
        Sample.user Sample.nvram).user = Sample.user ∧
      ∀ e ∈ (efi_runtime_ioctl Sample.target Sample.boundary Sample.firmware Sample.locals 2 200
        Sample.user Sample.nvram).trace, e.isEgress = false) :=
  ⟨⟨by decide,
    (ioctl_no_output_on_error.1 Sample.User Sample.Nvram Sample.target Sample.boundary
      Sample.firmware Sample.locals 3 999 Sample.user Sample.nvram (by decide)).1,
    by decide,
    (ioctl_no_output_on_error.1 Sample.User Sample.Nvram Sample.target Sample.boundary
      Sample.firmware Sample.locals 3 999 Sample.user Sample.nvram (by decide)).2.1
      (by decide)⟩,
   ⟨⟨by decide, by decide, by decide⟩,
    (ioctl_no_output_on_error.1 efi_getvariable Unit Sample.target Sample.blockBoundary
      Sample.sizingFirmware Sample.locals 1 100 Sample.aliasedBlock () (by decide)).2.2.2
      (by decide) Sample.aliasedBlock (by decide)⟩,
   ⟨⟨by decide, by decide⟩,
    ioctl_no_output_on_error.2.1 Sample.User Sample.Nvram Sample.target Sample.boundary
      Sample.firmware Sample.locals 101 Sample.user Sample.nvram ⟨67, 1, 2, 16, 0⟩
      (by decide) (by decide)⟩,
   ⟨Or.inl (by decide),
    ioctl_no_output_on_error.2.2 Sample.User Sample.Nvram Sample.target Sample.boundary
      Sample.firmware Sample.locals 2 200 Sample.user Sample.nvram (Or.inl (by decide))⟩⟩

/-- C6: SetTime converts the ingested time.  When the copy of the argument block
succeeds and yields `settime`, the record handed to the firmware set-time call is the
conversion of `settime.Time` (whatever the pointer size and whatever the local
`eft` held before), so its year, month, day, hour, minute, second, nanosecond,
timezone and daylight are those of `settime.Time`; exactly that one firmware call is
made, and the result is 0 when it returns `EFI_SUCCESS` and `-EINVAL` otherwise. -/
theorem ioctl_set_time_converts_ingested (k : Target) (user : Boundary U)
    (efi : Firmware U σ) (locals : Locals) (arg : Nat) (u : U) (s : σ) (settime : efi_settime)
    (hin : user.settime.copy_from_user u arg = some settime) :
    ∃ eft : efi_time_t,
      (∀ n eft0, eft = convert_to_efi_time n eft0 settime.Time) ∧
      eft.year = settime.Time.Year ∧ eft.month = settime.Time.Month ∧
      eft.day = settime.Time.Day ∧ eft.hour = settime.Time.Hour ∧
      eft.minute = settime.Time.Minute ∧ eft.second = settime.Time.Second ∧
      eft.nanosecond = settime.Time.Nanosecond ∧ eft.timezone = settime.Time.TimeZone ∧
      eft.daylight = settime.Time.Daylight ∧
      (efi_runtime_ioctl k user efi locals k.EFI_RUNTIME_SET_TIME arg u s).trace =
        [.copy_from_user arg true, .firmware (.set_time eft) (efi.set_time s eft).1] ∧
      (efi_runtime_ioctl k user efi locals k.EFI_RUNTIME_SET_TIME arg u s).ret =
        (if (efi.set_time s eft).1 = EFI_SUCCESS then 0 else -EINVAL) ∧
      (efi_runtime_ioctl k user efi locals k.EFI_RUNTIME_SET_TIME arg u s).fw =
        (efi.set_time s eft).2 := by
  have hne := k.codes_ne
  refine ⟨convert_to_efi_time k.sizeof_ptr locals.eft settime.Time, fun _ _ => rfl,
    rfl, rfl, rfl, rfl, rfl, rfl, rfl, rfl, rfl, ?_, ?_, ?_⟩ <;>
    simp [efi_runtime_ioctl, hne, hin]

theorem ioctl_set_time_converts_ingested_witness :
    Sample.boundary.settime.copy_from_user Sample.user 400 = some ⟨Sample.time⟩ ∧
    ∃ eft : efi_time_t,
      (∀ n eft0, eft = convert_to_efi_time n eft0 Sample.time) ∧
      eft.year = 2024 ∧ eft.month = 5 ∧ eft.day = 17 ∧ eft.hour = 8 ∧ eft.minute = 30 ∧
      eft.second = 15 ∧ eft.nanosecond = 123456789 ∧ eft.timezone = -60 ∧
      eft.daylight = 1 ∧
      (efi_runtime_ioctl Sample.target Sample.boundary Sample.firmware Sample.locals 4 400
        Sample.user Sample.nvram).trace =
        [.copy_from_user 400 true,
         .firmware (.set_time eft) (Sample.firmware.set_time Sample.nvram eft).1] ∧
      (efi_runtime_ioctl Sample.target Sample.boundary Sample.firmware Sample.locals 4 400
        Sample.user Sample.nvram).ret =
        (if (Sample.firmware.set_time Sample.nvram eft).1 = EFI_SUCCESS then 0 else -EINVAL) ∧
      (efi_runtime_ioctl Sample.target Sample.boundary Sample.firmware Sample.locals 4 400
        Sample.user Sample.nvram).fw =
        (Sample.firmware.set_time Sample.nvram eft).2 :=
  ⟨by decide,
   ioctl_set_time_converts_ingested Sample.target Sample.boundary Sample.firmware
     Sample.locals 400 Sample.user Sample.nvram ⟨Sample.time⟩ (by decide)⟩

/-- C8: GetTime result content.  When the firmware get-time call returns
`EFI_SUCCESS` with a time record `T` and capabilities `C` (any values, a zero
resolution included) and the copy to user memory succeeds, the dispatcher returns 0,
the run consists of that one firmware call followed by that one copy to user memory
(no copy from user memory), and the block written has `Resolution`, `Accuracy` and
`SetsToZero` equal to those of `C` and `Time` equal to `convert_from_efi_time` of `T`,
whatever the local block held before. -/
theorem ioctl_get_time_content (k : Target) (user : Boundary U) (efi : Firmware U σ)
    (locals : Locals) (arg : Nat) (u u1 : U) (s s1 : σ) (T : efi_time_t)
    (C : efi_time_cap_t)
    (hfw : efi.get_time s locals.eft locals.cap = ⟨EFI_SUCCESS, T, C, s1⟩)
    (hout : user.gettime.copy_to_user u arg
      ⟨⟨C.resolution, C.accuracy, C.sets_to_zero⟩,
        convert_from_efi_time T locals.gettime.Time⟩ = some u1) :
    (efi_runtime_ioctl k user efi locals k.EFI_RUNTIME_GET_TIME arg u s).ret = 0 ∧
    (efi_runtime_ioctl k user efi locals k.EFI_RUNTIME_GET_TIME arg u s).user = u1 ∧
    (efi_runtime_ioctl k user efi locals k.EFI_RUNTIME_GET_TIME arg u s).fw = s1 ∧
    (∀ e ∈ (efi_runtime_ioctl k user efi locals k.EFI_RUNTIME_GET_TIME arg u s).trace,
      e.isIngest = false) ∧
    ∃ gettime : efi_gettime,
      (efi_runtime_ioctl k user efi locals k.EFI_RUNTIME_GET_TIME arg u s).trace =
        [.firmware .get_time EFI_SUCCESS, .copy_to_user arg (.gettime gettime) true] ∧
      gettime.Capabilities.Resolution = C.resolution ∧
      gettime.Capabilities.Accuracy = C.accuracy ∧
      gettime.Capabilities.SetsToZero = C.sets_to_zero ∧
      (∀ time0, gettime.Time = convert_from_efi_time T time0) ∧
      gettime.Time.Year = T.year ∧ gettime.Time.Month = T.month ∧
      gettime.Time.Day = T.day ∧ gettime.Time.Hour = T.hour ∧
      gettime.Time.Minute = T.minute ∧ gettime.Time.Second = T.second ∧
      gettime.Time.Pad1 = T.pad1 ∧ gettime.Time.Nanosecond = T.nanosecond ∧
      gettime.Time.TimeZone = T.timezone ∧ gettime.Time.Daylight = T.daylight ∧
      gettime.Time.Pad2 = T.pad2 := by
  have hne := k.codes_ne
  have hrun : efi_runtime_ioctl k user efi locals k.EFI_RUNTIME_GET_TIME arg u s =
      ⟨0, u1, s1, [.firmware .get_time EFI_SUCCESS,
        .copy_to_user arg (.gettime ⟨⟨C.resolution, C.accuracy, C.sets_to_zero⟩,
          convert_from_efi_time T locals.gettime.Time⟩) true]⟩ := by
    simp [efi_runtime_ioctl, hne, hfw, hout]
  rw [hrun]
  refine ⟨rfl, rfl, rfl, ?_, ⟨⟨C.resolution, C.accuracy, C.sets_to_zero⟩,
    convert_from_efi_time T locals.gettime.Time⟩, rfl, rfl, rfl, rfl, fun _ => rfl,
    rfl, rfl, rfl, rfl, rfl, rfl, rfl, rfl, rfl, rfl, rfl⟩
  intro e he
  simp only [List.mem_cons, List.mem_singleton, List.not_mem_nil, or_false] at he
  rcases he with rfl | rfl <;> rfl

theorem ioctl_get_time_content_witness :
    (Sample.firmware.get_time Sample.nvram Sample.locals.eft Sample.locals.cap
        = ⟨EFI_SUCCESS, Sample.eft, ⟨0, 50000000, 0⟩, Sample.nvram⟩ ∧
      Sample.boundary.gettime.copy_to_user Sample.user 300
        ⟨⟨0, 50000000, 0⟩, convert_from_efi_time Sample.eft Sample.locals.gettime.Time⟩
        = some Sample.userGotTime) ∧
    (efi_runtime_ioctl Sample.target Sample.boundary Sample.firmware Sample.locals 3 300
        Sample.user Sample.nvram).ret = 0 ∧
    (efi_runtime_ioctl Sample.target Sample.boundary Sample.firmware Sample.locals 3 300
        Sample.user Sample.nvram).user = Sample.userGotTime ∧
    (efi_runtime_ioctl Sample.target Sample.boundary Sample.firmware Sample.locals 3 300
        Sample.user Sample.nvram).fw = Sample.nvram ∧
    (∀ e ∈ (efi_runtime_ioctl Sample.target Sample.boundary Sample.firmware Sample.locals 3 300
        Sample.user Sample.nvram).trace,
      e.isIngest = false) ∧
    ∃ gettime : efi_gettime,
      (efi_runtime_ioctl Sample.target Sample.boundary Sample.firmware Sample.locals 3 300
        Sample.user Sample.nvram).trace =
        [.firmware .get_time EFI_SUCCESS, .copy_to_user 300 (.gettime gettime) true] ∧
      gettime.Capabilities.Resolution = 0 ∧
      gettime.Capabilities.Accuracy = 50000000 ∧
      gettime.Capabilities.SetsToZero = 0 ∧
      (∀ time0, gettime.Time = convert_from_efi_time Sample.eft time0) ∧
      gettime.Time.Year = 1999 ∧ gettime.Time.Month = 12 ∧
      gettime.Time.Day = 31 ∧ gettime.Time.Hour = 23 ∧
      gettime.Time.Minute = 59 ∧ gettime.Time.Second = 59 ∧
      gettime.Time.Pad1 = 0 ∧ gettime.Time.Nanosecond = 0 ∧
      gettime.Time.TimeZone = 2047 ∧ gettime.Time.Daylight = 0 ∧
      gettime.Time.Pad2 = 0 :=
  ⟨⟨rfl, by decide⟩,
   ioctl_get_time_content Sample.target Sample.boundary Sample.firmware Sample.locals 300
     Sample.user Sample.userGotTime Sample.nvram Sample.nvram Sample.eft ⟨0, 50000000, 0⟩
     rfl (by decide)⟩

/-- C9: wake alarm, set then get.
(1) SetWakeupTime whose ingest succeeds hands the firmware set-wakeup-time call the
ingested `Enabled` flag and the conversion of the ingested time, in one call, writes
nothing to user memory, and returns 0 on `EFI_SUCCESS` and `-EINVAL` otherwise.
(2) GetWakeupTime whose firmware call returns `EFI_SUCCESS` with flags `e`, `p` and
time `T` hands `copy_to_user` the block with `Enabled = e`, `Pending = p` and
`Time = convert_from_efi_time T`, and returns 0 when that copy succeeds and `-EFAULT`
otherwise.
(3) Against a firmware that, after a successful set-wakeup-time, answers
get-wakeup-time with `EFI_SUCCESS` and the stored flag and time: for every flag `e`
and time `t`, when SetWakeupTime of `(e, t)` returns 0 and the destination of the
following GetWakeupTime is writable, that GetWakeupTime returns 0 and writes a block
with `Enabled = e`, with `Time` equal to `t` in year, month, day, hour, minute,
second, nanosecond, timezone and daylight, and with `Pending` as the firmware
reports it. -/
theorem ioctl_wakeup_set_then_get :
    (∀ (U σ : Type) (k : Target) (user : Boundary U) (efi : Firmware U σ) (locals : Locals)
        (arg : Nat) (u : U) (s : σ) (sw : efi_setwakeuptime),
      user.setwakeuptime.copy_from_user u arg = some sw →
      ∃ eft : efi_time_t,
        (∀ n eft0, eft = convert_to_efi_time n eft0 sw.Time) ∧
        (efi_runtime_ioctl k user efi locals k.EFI_RUNTIME_SET_WAKETIME arg u s).trace =
          [.copy_from_user arg true,
           .firmware (.set_wakeup_time sw.Enabled eft)
             (efi.set_wakeup_time s sw.Enabled eft).1] ∧
        (efi_runtime_ioctl k user efi locals k.EFI_RUNTIME_SET_WAKETIME arg u s).ret =
          (if (efi.set_wakeup_time s sw.Enabled eft).1 = EFI_SUCCESS then 0 else -EINVAL) ∧
        (efi_runtime_ioctl k user efi locals k.EFI_RUNTIME_SET_WAKETIME arg u s).fw =
          (efi.set_wakeup_time s sw.Enabled eft).2 ∧
        (efi_runtime_ioctl k user efi locals k.EFI_RUNTIME_SET_WAKETIME arg u s).user = u) ∧
    (∀ (U σ : Type) (k : Target) (user : Boundary U) (efi : Firmware U σ) (locals : Locals)
        (arg : Nat) (u : U) (s s1 : σ) (e p : Nat) (T : efi_time_t),
      efi.get_wakeup_time s locals.enabled locals.pending locals.eft
        = ⟨EFI_SUCCESS, e, p, T, s1⟩ →
      ∃ g : efi_getwakeuptime,
        g.Enabled = e ∧ g.Pending = p ∧ (∀ time0, g.Time = convert_from_efi_time T time0) ∧
        (efi_runtime_ioctl k user efi locals k.EFI_RUNTIME_GET_WAKETIME arg u s).trace =
          [.firmware .get_wakeup_time EFI_SUCCESS,
           .copy_to_user arg (.getwakeuptime g)
             (user.getwakeuptime.copy_to_user u arg g).isSome] ∧
        (efi_runtime_ioctl k user efi locals k.EFI_RUNTIME_GET_WAKETIME arg u s).ret =
          (if (user.getwakeuptime.copy_to_user u arg g).isSome then 0 else -EFAULT)) ∧
    (∀ (U σ : Type) (k : Target) (user : Boundary U) (efi : Firmware U σ)
        (locals1 locals2 : Locals) (arg1 arg2 : Nat) (u : U) (s : σ) (e : Nat) (t : EFI_TIME),
      (∀ s0 en X s1, efi.set_wakeup_time s0 en X = (EFI_SUCCESS, s1) →
        ∀ a b c, (efi.get_wakeup_time s1 a b c).status = EFI_SUCCESS ∧
          (efi.get_wakeup_time s1 a b c).enabled = en ∧
          (efi.get_wakeup_time s1 a b c).eft = X) →
      user.setwakeuptime.copy_from_user u arg1 = some ⟨e, t⟩ →
      (efi_runtime_ioctl k user efi locals1 k.EFI_RUNTIME_SET_WAKETIME arg1 u s).ret = 0 →
      (∀ x, (user.getwakeuptime.copy_to_user
        (efi_runtime_ioctl k user efi locals1 k.EFI_RUNTIME_SET_WAKETIME arg1 u s).user
        arg2 x).isSome) →
      (efi_runtime_ioctl k user efi locals2 k.EFI_RUNTIME_GET_WAKETIME arg2
        (efi_runtime_ioctl k user efi locals1 k.EFI_RUNTIME_SET_WAKETIME arg1 u s).user
        (efi_runtime_ioctl k user efi locals1 k.EFI_RUNTIME_SET_WAKETIME arg1 u s).fw).ret
        = 0 ∧
      ∃ g : efi_getwakeuptime,
        (efi_runtime_ioctl k user efi locals2 k.EFI_RUNTIME_GET_WAKETIME arg2
          (efi_runtime_ioctl k user efi locals1 k.EFI_RUNTIME_SET_WAKETIME arg1 u s).user
          (efi_runtime_ioctl k user efi locals1 k.EFI_RUNTIME_SET_WAKETIME arg1 u s).fw).trace
          = [.firmware .get_wakeup_time EFI_SUCCESS,
             .copy_to_user arg2 (.getwakeuptime g) true] ∧
        user.getwakeuptime.copy_to_user u arg2 g = some
          (efi_runtime_ioctl k user efi locals2 k.EFI_RUNTIME_GET_WAKETIME arg2
            (efi_runtime_ioctl k user efi locals1 k.EFI_RUNTIME_SET_WAKETIME arg1 u s).user
            (efi_runtime_ioctl k user efi locals1 k.EFI_RUNTIME_SET_WAKETIME arg1 u s).fw).user ∧
        g.Enabled = e ∧
        g.Pending = (efi.get_wakeup_time
          (efi_runtime_ioctl k user efi locals1 k.EFI_RUNTIME_SET_WAKETIME arg1 u s).fw
          locals2.enabled locals2.pending locals2.eft).pending ∧
        g.Time.Year = t.Year ∧ g.Time.Month = t.Month ∧ g.Time.Day = t.Day ∧
        g.Time.Hour = t.Hour ∧ g.Time.Minute = t.Minute ∧ g.Time.Second = t.Second ∧
        g.Time.Nanosecond = t.Nanosecond ∧ g.Time.TimeZone = t.TimeZone ∧
        g.Time.Daylight = t.Daylight) := by
  refine ⟨?_, ?_, ?_⟩
  · intro U σ k user efi locals arg u s sw hin
    have hne := k.codes_ne
    refine ⟨convert_to_efi_time k.sizeof_ptr locals.eft sw.Time, fun _ _ => rfl,
      ?_, ?_, ?_, ?_⟩ <;> simp [efi_runtime_ioctl, hne, hin]
  · intro U σ k user efi locals arg u s s1 e p T hfw
    have hne := k.codes_ne
    refine ⟨⟨e, p, convert_from_efi_time T locals.getwakeuptime.Time⟩, rfl, rfl,
      fun _ => rfl, ?_, ?_⟩
    · cases hout : user.getwakeuptime.copy_to_user u arg
        ⟨e, p, convert_from_efi_time T locals.getwakeuptime.Time⟩ <;>
        simp [efi_runtime_ioctl, hne, hfw, hout]
    · cases hout : user.getwakeuptime.copy_to_user u arg
        ⟨e, p, convert_from_efi_time T locals.getwakeuptime.Time⟩ <;>
        simp [efi_runtime_ioctl, hne, hfw, hout]
  · intro U σ k user efi locals1 locals2 arg1 arg2 u s e t hstore hin hret hw
    have hne := k.codes_ne
    have hrun1 : efi_runtime_ioctl k user efi locals1 k.EFI_RUNTIME_SET_WAKETIME arg1 u s =
        ⟨if (efi.set_wakeup_time s e (convert_to_efi_time k.sizeof_ptr locals1.eft t)).1
            = EFI_SUCCESS then 0 else -EINVAL, u,
          (efi.set_wakeup_time s e (convert_to_efi_time k.sizeof_ptr locals1.eft t)).2,
          [.copy_from_user arg1 true,
           .firmware (.set_wakeup_time e (convert_to_efi_time k.sizeof_ptr locals1.eft t))
             (efi.set_wakeup_time s e
               (convert_to_efi_time k.sizeof_ptr locals1.eft t)).1]⟩ := by
      simp [efi_runtime_ioctl, hne, hin]
    rw [hrun1] at hret hw
    rw [hrun1]
    simp only at hret hw ⊢
    have hst : (efi.set_wakeup_time s e
        (convert_to_efi_time k.sizeof_ptr locals1.eft t)).1 = EFI_SUCCESS := by
      by_contra hcon
      rw [if_neg hcon] at hret
      exact absurd hret (by decide)
    have hpair : efi.set_wakeup_time s e (convert_to_efi_time k.sizeof_ptr locals1.eft t) =
        (EFI_SUCCESS,
          (efi.set_wakeup_time s e (convert_to_efi_time k.sizeof_ptr locals1.eft t)).2) :=
      Prod.ext hst rfl
    obtain ⟨h1, h2, h3⟩ := hstore _ _ _ _ hpair locals2.enabled locals2.pending locals2.eft
    generalize (efi.set_wakeup_time s e
      (convert_to_efi_time k.sizeof_ptr locals1.eft t)).2 = s1 at h1 h2 h3 ⊢
    generalize hr : efi.get_wakeup_time s1 locals2.enabled locals2.pending locals2.eft = r
      at h1 h2 h3 ⊢
    have hw1 := hw ⟨r.enabled, r.pending,
      convert_from_efi_time r.eft locals2.getwakeuptime.Time⟩
    obtain ⟨u2, hu2⟩ := Option.isSome_iff_exists.mp hw1
    have hrun2 : efi_runtime_ioctl k user efi locals2 k.EFI_RUNTIME_GET_WAKETIME arg2 u s1 =
        ⟨0, u2, r.state, [.firmware .get_wakeup_time EFI_SUCCESS,
          .copy_to_user arg2 (.getwakeuptime ⟨r.enabled, r.pending,
            convert_from_efi_time r.eft locals2.getwakeuptime.Time⟩) true]⟩ := by
      simp [efi_runtime_ioctl, hne, hr, h1, hu2]
    rw [hrun2]
    refine ⟨rfl, ⟨r.enabled, r.pending,
      convert_from_efi_time r.eft locals2.getwakeuptime.Time⟩, rfl, hu2, h2, rfl, ?_⟩
    rw [h3]
    exact ⟨rfl, rfl, rfl, rfl, rfl, rfl, rfl, rfl, rfl⟩

theorem Sample.firmware_stores_wakeup (s0 : Sample.Nvram) (en : Nat) (X : efi_time_t)
    (s1 : Sample.Nvram) (h : Sample.firmware.set_wakeup_time s0 en X = (EFI_SUCCESS, s1))
    (a b : Nat) (c : efi_time_t) :
    (Sample.firmware.get_wakeup_time s1 a b c).status = EFI_SUCCESS ∧
    (Sample.firmware.get_wakeup_time s1 a b c).enabled = en ∧
    (Sample.firmware.get_wakeup_time s1 a b c).eft = X := by
  simp only [Sample.firmware] at h ⊢
  split at h
  · simp only [Prod.mk.injEq, true_and] at h
    subst h
    simp
  · simp [EFI_SUCCESS] at h

theorem ioctl_wakeup_set_then_get_witness :
    (Sample.boundary.setwakeuptime.copy_from_user Sample.user 600 = some ⟨0, Sample.time⟩ ∧
      ∃ eft : efi_time_t,
        (∀ n eft0, eft = convert_to_efi_time n eft0 Sample.time) ∧
        (efi_runtime_ioctl Sample.target Sample.boundary Sample.firmware Sample.locals 6 600
        Sample.user Sample.nvram).trace =
          [.copy_from_user 600 true,
           .firmware (.set_wakeup_time 0 eft)
             (Sample.firmware.set_wakeup_time Sample.nvram 0 eft).1] ∧
        (efi_runtime_ioctl Sample.target Sample.boundary Sample.firmware Sample.locals 6 600
        Sample.user Sample.nvram).ret =
          (if (Sample.firmware.set_wakeup_time Sample.nvram 0 eft).1 = EFI_SUCCESS
            then 0 else -EINVAL) ∧
        (efi_runtime_ioctl Sample.target Sample.boundary Sample.firmware Sample.locals 6 600
        Sample.user Sample.nvram).fw =
          (Sample.firmware.set_wakeup_time Sample.nvram 0 eft).2 ∧
        (efi_runtime_ioctl Sample.target Sample.boundary Sample.firmware Sample.locals 6 600
        Sample.user Sample.nvram).user = Sample.user) ∧
    (Sample.firmware.get_wakeup_time Sample.nvram Sample.locals.enabled
        Sample.locals.pending Sample.locals.eft
        = ⟨EFI_SUCCESS, 1, 1, Sample.eft, Sample.nvram⟩ ∧
      ∃ g : efi_getwakeuptime,
        g.Enabled = 1 ∧ g.Pending = 1 ∧
        (∀ time0, g.Time = convert_from_efi_time Sample.eft time0) ∧
        (efi_runtime_ioctl Sample.target Sample.boundary Sample.firmware Sample.locals 5 500
        Sample.user Sample.nvram).trace =
          [.firmware .get_wakeup_time EFI_SUCCESS,
           .copy_to_user 500 (.getwakeuptime g)
             (Sample.boundary.getwakeuptime.copy_to_user Sample.user 500 g).isSome] ∧
        (efi_runtime_ioctl Sample.target Sample.boundary Sample.firmware Sample.locals 5 500
        Sample.user Sample.nvram).ret =
          (if (Sample.boundary.getwakeuptime.copy_to_user Sample.user 500 g).isSome
            then 0 else -EFAULT)) ∧
    ((Sample.boundary.setwakeuptime.copy_from_user Sample.user 600 = some ⟨0, Sample.time⟩ ∧
      (efi_runtime_ioctl Sample.target Sample.boundary Sample.firmware Sample.locals 6 600
        Sample.user Sample.nvram).ret = 0 ∧
      (∀ x, (Sample.boundary.getwakeuptime.copy_to_user
        (efi_runtime_ioctl Sample.target Sample.boundary Sample.firmware Sample.locals 6 600
        Sample.user Sample.nvram).user 500 x).isSome)) ∧
      (efi_runtime_ioctl Sample.target Sample.boundary Sample.firmware Sample.locals 5 500
        (efi_runtime_ioctl Sample.target Sample.boundary Sample.firmware Sample.locals 6 600
        Sample.user Sample.nvram).user
        (efi_runtime_ioctl Sample.target Sample.boundary Sample.firmware Sample.locals 6 600
        Sample.user Sample.nvram).fw).ret = 0 ∧
      ∃ g : efi_getwakeuptime,
        (efi_runtime_ioctl Sample.target Sample.boundary Sample.firmware Sample.locals 5 500
        (efi_runtime_ioctl Sample.target Sample.boundary Sample.firmware Sample.locals 6 600
        Sample.user Sample.nvram).user
        (efi_runtime_ioctl Sample.target Sample.boundary Sample.firmware Sample.locals 6 600
        Sample.user Sample.nvram).fw).trace
          = [.firmware .get_wakeup_time EFI_SUCCESS,
             .copy_to_user 500 (.getwakeuptime g) true] ∧
        Sample.boundary.getwakeuptime.copy_to_user Sample.user 500 g = some
          (efi_runtime_ioctl Sample.target Sample.boundary Sample.firmware Sample.locals 5 500
        (efi_runtime_ioctl Sample.target Sample.boundary Sample.firmware Sample.locals 6 600
        Sample.user Sample.nvram).user
        (efi_runtime_ioctl Sample.target Sample.boundary Sample.firmware Sample.locals 6 600
        Sample.user Sample.nvram).fw).user ∧
        g.Enabled = 0 ∧
        g.Pending = (Sample.firmware.get_wakeup_time
          (efi_runtime_ioctl Sample.target Sample.boundary Sample.firmware Sample.locals 6 600
        Sample.user Sample.nvram).fw
          Sample.locals.enabled Sample.locals.pending Sample.locals.eft).pending ∧
        g.Time.Year = 2024 ∧ g.Time.Month = 5 ∧ g.Time.Day = 17 ∧
        g.Time.Hour = 8 ∧ g.Time.Minute = 30 ∧ g.Time.Second = 15 ∧
        g.Time.Nanosecond = 123456789 ∧ g.Time.TimeZone = -60 ∧
        g.Time.Daylight = 1) :=
  ⟨⟨by decide,
    ioctl_wakeup_set_then_get.1 Sample.User Sample.Nvram Sample.target Sample.boundary
      Sample.firmware Sample.locals 600 Sample.user Sample.nvram ⟨0, Sample.time⟩
      (by decide)⟩,
   ⟨rfl,
    ioctl_wakeup_set_then_get.2.1 Sample.User Sample.Nvram Sample.target Sample.boundary
      Sample.firmware Sample.locals 500 Sample.user Sample.nvram Sample.nvram 1 1 Sample.eft
      rfl⟩,
   ⟨⟨by decide, by decide, fun _ => rfl⟩,
    ioctl_wakeup_set_then_get.2.2 Sample.User Sample.Nvram Sample.target Sample.boundary
      Sample.firmware Sample.locals Sample.locals 600 500 Sample.user Sample.nvram 0
      Sample.time Sample.firmware_stores_wakeup (by decide) (by decide) (fun _ => rfl)⟩⟩

end EfiRuntime
